import Mathlib

/-!
Shallow embedding of the WandaStaff geofenced attendance core
(`src/services/crmSyncService.ts` `ClockService`, and
`src/screens/ClockInOutScreen.tsx` `getCurrentStatus` / the dashboard's
`calculateWeeklyHours` rounding), together with proofs checking the
natural-language specification against it.

Modelling conventions:
* JavaScript numbers are modelled as exact arithmetic: timestamps
  (`Timestamp.toMillis`, `Date.getTime`) as `ℤ` milliseconds, durations and
  hour totals as `ℚ`, geographic arithmetic as `ℝ`.
* `Date.toDateString()` equality (same local calendar day) is modelled by
  equality of `dayOf t = t.fdiv 86400000`, the epoch day index.  The spec
  itself leaves the governing timezone unresolved (§9), so a fixed day
  partition of the timeline is used.
* `Array.prototype.sort` with comparator `a.timestamp - b.timestamp` is a
  stable sort, modelled by `List.insertionSort` on a `≤` comparison.
-/

namespace WandaStaff

/-- The `type` field of a `ClockRecord` (`'clock-in' | 'clock-out'` in
`src/types/index.ts`). -/
inductive ClockType
  | clockIn
  | clockOut
  deriving DecidableEq, Repr

/-- The fields of a stored clock record that the weekly-hours and status
logic reads: its kind and its timestamp in epoch milliseconds. -/
structure ClockRecord where
  type : ClockType
  timestamp : ℤ
  deriving DecidableEq, Repr

/-- Milliseconds per calendar day. -/
def msPerDay : ℤ := 86400000

/-- The calendar day of an epoch-millisecond timestamp; two timestamps `s`,
`t` satisfy `dayOf s = dayOf t` exactly when the source's
`toDateString()` strings coincide (under the fixed-timezone convention). -/
def dayOf (t : ℤ) : ℤ := Int.fdiv t msPerDay

/-- The sort relation used by `clockRecords.sort((a, b) =>
a.timestamp.toMillis() - b.timestamp.toMillis())`. -/
def tsLE (a b : ClockRecord) : Prop := a.timestamp ≤ b.timestamp

instance : DecidableRel tsLE := fun a b =>
  inferInstanceAs (Decidable (a.timestamp ≤ b.timestamp))

instance : IsTotal ClockRecord tsLE := ⟨fun a b => Int.le_total a.timestamp b.timestamp⟩

instance : IsTrans ClockRecord tsLE := ⟨fun _ _ _ h h' => le_trans h h'⟩

/-- The strict version of `tsLE`; needed to identify stably sorted lists
when all timestamps are distinct. -/
def tsLT (a b : ClockRecord) : Prop := a.timestamp < b.timestamp

instance : IsAntisymm ClockRecord tsLT :=
  ⟨fun _ _ h h' => absurd (lt_trans h h') (lt_irrefl _)⟩

/-- First-appearance deduplication of the day keys, modelling the insertion
order of the string-keyed `dayGroups` object in
`ClockService.calculateWeeklyHours` (`if (!dayGroups[day]) dayGroups[day]
= []`).  `seen` is the set of keys already present. -/
def dedupFirstAux : List ℤ → List ℤ → List ℤ
  | _, [] => []
  | seen, d :: ds =>
    if d ∈ seen then dedupFirstAux seen ds
    else d :: dedupFirstAux (d :: seen) ds

/-- The distinct day keys of a record list, in first-appearance order. -/
def dedupFirst (l : List ℤ) : List ℤ := dedupFirstAux [] l

/-- The inner loop of `ClockService.calculateWeeklyHours` over one day
group: `dayClockInTime` is the open clock-in pointer, `acc` the running
`totalMinutes`; a clock-in overwrites the pointer, a clock-out with an open
pointer adds `diffMs / (1000 * 60)` minutes and clears it. -/
def dayMinutesFold : Option ℤ → ℚ → List ClockRecord → ℚ
  | _, acc, [] => acc
  | ptr, acc, r :: rs =>
    match r.type, ptr with
    | ClockType.clockIn, _ => dayMinutesFold (some r.timestamp) acc rs
    | ClockType.clockOut, some tin =>
        dayMinutesFold none (acc + ((r.timestamp : ℚ) - (tin : ℚ)) / (1000 * 60)) rs
    | ClockType.clockOut, none => dayMinutesFold none acc rs

/-- `ClockService.calculateWeeklyHours` (`src/services/crmSyncService.ts`):
group the records by calendar day, sort each group by timestamp, pair
clock-ins with clock-outs within the day accumulating minutes, and return
`totalMinutes / 60` hours. -/
def calculateWeeklyHours (clockRecords : List ClockRecord) : ℚ :=
  let days := dedupFirst (clockRecords.map fun r => dayOf r.timestamp)
  let totalMinutes :=
    (days.map fun d =>
      dayMinutesFold none 0
        (List.insertionSort tsLE
          (clockRecords.filter fun r => dayOf r.timestamp = d))).sum
  totalMinutes / 60

/-- The dashboard's display rounding of the weekly total
(`setWeeklyHours(Math.round(hours * 10) / 10)` in
`src/screens/ClockInOutScreen.tsx`): round to the nearest tenth of an
hour.  Mathlib's `round` rounds half toward `+∞`, as `Math.round` does. -/
def roundToTenth (hours : ℚ) : ℚ := (round (hours * 10) : ℤ) / 10

/-- The single-pointer loop of the spec's §4.3 reference algorithm, written
from the spec's words: iterate chronologically, a ClockIn (re)opens the
pointer (overwriting a double clock-in), a ClockOut with an open pointer
adds `(clockOutTime - openClockInTime)` in hours and clears it. -/
def specHoursFold : Option ℤ → ℚ → List ClockRecord → ℚ
  | _, acc, [] => acc
  | ptr, acc, r :: rs =>
    match r.type, ptr with
    | ClockType.clockIn, _ => specHoursFold (some r.timestamp) acc rs
    | ClockType.clockOut, some tin =>
        specHoursFold none (acc + ((r.timestamp : ℚ) - (tin : ℚ)) / 3600000) rs
    | ClockType.clockOut, none => specHoursFold none acc rs

/-- The spec's §4.3 `aggregate` reference algorithm (unrounded total):
filter the events to `[weekStart, weekEnd]` and run the single
open-clock-in pointer over them in the given chronological order.  This is
the comparison point for the refinement claim about
`calculateWeeklyHours`; it is written from the spec's words, not from the
source. -/
def aggregateSpec (events : List ClockRecord) (weekStart weekEnd : ℤ) : ℚ :=
  specHoursFold none 0
    (events.filter fun e => weekStart ≤ e.timestamp ∧ e.timestamp ≤ weekEnd)

noncomputable section

open Classical

/-- JavaScript's `Math.atan2 y x` over the reals.  Signed zeros and NaN are
not modelled; in the haversine use below both arguments are square roots,
hence non-negative. -/
def atan2 (y x : ℝ) : ℝ :=
  if 0 < x then Real.arctan (y / x)
  else if x < 0 then
    (if 0 ≤ y then Real.arctan (y / x) + Real.pi else Real.arctan (y / x) - Real.pi)
  else if 0 < y then Real.pi / 2
  else if y < 0 then -(Real.pi / 2)
  else 0

/-- The haversine intermediate `a` exactly as `ClockService.calculateDistance`
computes it (`src/services/crmSyncService.ts`). -/
def haversineA (lat1 lng1 lat2 lng2 : ℝ) : ℝ :=
  let φ1 := lat1 * Real.pi / 180
  let φ2 := lat2 * Real.pi / 180
  let Δφ := (lat2 - lat1) * Real.pi / 180
  let Δlng := (lng2 - lng1) * Real.pi / 180
  Real.sin (Δφ / 2) * Real.sin (Δφ / 2) +
    Real.cos φ1 * Real.cos φ2 * Real.sin (Δlng / 2) * Real.sin (Δlng / 2)

/-- `ClockService.calculateDistance` (`src/services/crmSyncService.ts`):
haversine great-circle distance in metres, `R = 6371e3`.  The body is
straight-line arithmetic; it contains no coordinate validation and no
throw. -/
def calculateDistance (lat1 lng1 lat2 lng2 : ℝ) : ℝ :=
  let R : ℝ := 6371e3
  let a := haversineA lat1 lng1 lat2 lng2
  let c := 2 * atan2 (Real.sqrt a) (Real.sqrt (1 - a))
  R * c

/-- The `calculateDistance` helper of `src/screens/ScheduleScreen.tsx`
(lines 254–267), a second copy of the same formula. -/
def scheduleCalculateDistance (lat1 lon1 lat2 lon2 : ℝ) : ℝ :=
  let R : ℝ := 6371e3
  let φ1 := lat1 * Real.pi / 180
  let φ2 := lat2 * Real.pi / 180
  let Δφ := (lat2 - lat1) * Real.pi / 180
  let Δlng := (lon2 - lon1) * Real.pi / 180
  let a := Real.sin (Δφ / 2) * Real.sin (Δφ / 2) +
      Real.cos φ1 * Real.cos φ2 * Real.sin (Δlng / 2) * Real.sin (Δlng / 2)
  let c := 2 * atan2 (Real.sqrt a) (Real.sqrt (1 - a))
  R * c

/-- The spec's §4.1 `evaluate` distance algorithm, written from the spec's
pseudocode (`R = 6371000`, `a = sin²(Δφ/2) + cos φ1 · cos φ2 · sin²(Δlng/2)`,
`c = 2·atan2(√a, √(1-a))`, `distanceMeters = R·c`); the comparison point
for the distance-formula claim. -/
def haversineSpec (fromLat fromLng toLat toLng : ℝ) : ℝ :=
  let R : ℝ := 6371000
  let φ1 := fromLat * Real.pi / 180
  let φ2 := toLat * Real.pi / 180
  let Δφ := (toLat - fromLat) * Real.pi / 180
  let Δlng := (toLng - fromLng) * Real.pi / 180
  let a := Real.sin (Δφ / 2) ^ 2 + Real.cos φ1 * Real.cos φ2 * Real.sin (Δlng / 2) ^ 2
  let c := 2 * atan2 (Real.sqrt a) (Real.sqrt (1 - a))
  R * c

/-- The spec's §4.1 coordinate constraints: `latitude ∈ [-90, 90]`,
`longitude ∈ [-180, 180]` for both endpoints. -/
def latLngInRange (lat1 lng1 lat2 lng2 : ℝ) : Prop :=
  -90 ≤ lat1 ∧ lat1 ≤ 90 ∧ -180 ≤ lng1 ∧ lng1 ≤ 180 ∧
    -90 ≤ lat2 ∧ lat2 ≤ 90 ∧ -180 ≤ lng2 ∧ lng2 ≤ 180

/-- The spec's §7 error for out-of-range coordinates. -/
inductive GeoError
  | invalidCoordinate
  deriving DecidableEq

/-- `ClockService.calculateDistance` viewed as a fallible call, as the
spec's `evaluate` signature demands.  The source body performs no range
check and never throws, so every input produces `Except.ok` of the
haversine value. -/
def calculateDistanceE (lat1 lng1 lat2 lng2 : ℝ) : Except GeoError ℝ :=
  Except.ok (calculateDistance lat1 lng1 lat2 lng2)

/-- A latitude/longitude pair (`{ lat, lng }` in the source). -/
structure Coordinate where
  lat : ℝ
  lng : ℝ

/-- `AppConstants.business.defaultClockRadiusMeters`
(`src/config/Constants.ts`): configured via `expoExtra`, falling back to
`500`. -/
def defaultClockRadiusMeters : ℝ := 500

/-- The status strings produced by `getCurrentStatus` in
`src/screens/ClockInOutScreen.tsx`, as an inductive so that distinctness
of the templates is by constructor; `renderStatus` below gives the exact
source strings. -/
inductive Status
  | notClockedIn
  | notClockedInToday
  | clockedInFar (roundedDistance : ℤ)
  | outsideWorkArea
  | currentlyClockedIn
  | clockedOut
  deriving DecidableEq

/-- The exact string each `Status` constructor stands for in the source. -/
def renderStatus : Status → String
  | Status.notClockedIn => "Not clocked in"
  | Status.notClockedInToday => "Not clocked in today"
  | Status.clockedInFar rd => s!"Clocked in ({rd}m from workplace)"
  | Status.outsideWorkArea => "Outside work area"
  | Status.currentlyClockedIn => "Currently clocked in"
  | Status.clockedOut => "Clocked out"

/-- The record `getCurrentStatus` returns: `{ status, canClockIn }`, with
`isOutsideRange` present (and `true`) only in the out-of-range branch,
modelled as `false` elsewhere. -/
structure StatusResult where
  status : Status
  canClockIn : Bool
  isOutsideRange : Bool
  deriving DecidableEq

/-- `getCurrentStatus` (`src/screens/ClockInOutScreen.tsx`, lines
178–214): no record → "Not clocked in"; record from another calendar day →
"Not clocked in today"; otherwise, when both locations are known and the
distance exceeds the radius, the out-of-range branch; otherwise status by
the last record's type. -/
def getCurrentStatus (lastClockRecord : Option ClockRecord) (now : ℤ)
    (currentLocation businessLocation : Option Coordinate) : StatusResult :=
  match lastClockRecord with
  | none => ⟨Status.notClockedIn, true, false⟩
  | some last =>
    if dayOf last.timestamp ≠ dayOf now then
      ⟨Status.notClockedInToday, true, false⟩
    else
      match currentLocation, businessLocation with
      | some cur, some biz =>
        let distance := calculateDistance cur.lat cur.lng biz.lat biz.lng
        if distance > defaultClockRadiusMeters then
          match last.type with
          | ClockType.clockIn => ⟨Status.clockedInFar (round distance), false, true⟩
          | ClockType.clockOut => ⟨Status.outsideWorkArea, false, true⟩
        else
          match last.type with
          | ClockType.clockIn => ⟨Status.currentlyClockedIn, false, false⟩
          | ClockType.clockOut => ⟨Status.clockedOut, true, false⟩
      | _, _ =>
        match last.type with
        | ClockType.clockIn => ⟨Status.currentlyClockedIn, false, false⟩
        | ClockType.clockOut => ⟨Status.clockedOut, true, false⟩

/-- The fields of the clock record document that `ClockService.clockIn` /
`clockOut` write which the claims are about. -/
structure ClockWrite where
  type : ClockType
  timestamp : ℤ
  distanceFromBusiness : ℤ
  deriving DecidableEq

/-- `ClockService.clockIn` (`src/services/crmSyncService.ts`, lines
257–346) with its collaborators resolved (current location, business
location and the store all succeed).  The last-record / same-day
validation in the source is commented out ("FOR TESTING: Skip database
validation checks", "TODO: Re-enable these checks for production"), as is
the 500 m distance check, so the function unconditionally writes a
clock-in record with `distanceFromBusiness = Math.round(distance)`. -/
def clockIn (now : ℤ) (currentLocation business : Coordinate) :
    Except String ClockWrite :=
  Except.ok
    { type := ClockType.clockIn
      timestamp := now
      distanceFromBusiness :=
        round (calculateDistance currentLocation.lat currentLocation.lng
          business.lat business.lng) }

/-- `ClockService.clockOut` (`src/services/crmSyncService.ts`, lines
348–438): identical shape to `clockIn`, with the "not currently clocked
in" / "no clock-in record found for today" validation likewise commented
out. -/
def clockOut (now : ℤ) (currentLocation business : Coordinate) :
    Except String ClockWrite :=
  Except.ok
    { type := ClockType.clockOut
      timestamp := now
      distanceFromBusiness :=
        round (calculateDistance currentLocation.lat currentLocation.lng
          business.lat business.lng) }

/-- The user-status values of `ClockService.getUserClockStatus`. -/
inductive UserClockStatus
  | clockedIn
  | clockedOut
  | unknown
  deriving DecidableEq

/-- `ClockService.getUserClockStatus` (`src/services/crmSyncService.ts`,
lines 545–576) on its non-throwing path: the stored status document wins;
otherwise a same-day last record decides; otherwise `clocked-out`.  The
source returns `unknown` only from its `catch` block, i.e. only when the
store access throws — never because a location is absent (the function
reads no location at all). -/
def getUserClockStatus (statusDoc : Option UserClockStatus)
    (lastRecord : Option ClockRecord) (now : ℤ) : UserClockStatus :=
  match statusDoc with
  | some s => s
  | none =>
    match lastRecord with
    | some r =>
      if dayOf r.timestamp = dayOf now then
        (if r.type = ClockType.clockIn then UserClockStatus.clockedIn
         else UserClockStatus.clockedOut)
      else UserClockStatus.clockedOut
    | none => UserClockStatus.clockedOut

end

/-- `[ClockIn@09:00, ClockIn@09:05, ClockOut@17:00]` on day 0. -/
def doubleClockInDay : List ClockRecord :=
  [⟨ClockType.clockIn, 32400000⟩, ⟨ClockType.clockIn, 32700000⟩,
   ⟨ClockType.clockOut, 61200000⟩]

/-- `[ClockIn@09:00, ClockOut@17:00]` on day 0. -/
def plainDay : List ClockRecord :=
  [⟨ClockType.clockIn, 32400000⟩, ⟨ClockType.clockOut, 61200000⟩]

/-- `[ClockIn@23:00 day 0, ClockOut@01:00 day 1]`: one worked span crossing
midnight inside a single week. -/
def midnightPair : List ClockRecord :=
  [⟨ClockType.clockIn, 82800000⟩, ⟨ClockType.clockOut, 90000000⟩]

/-- `[ClockOut@00:00, ClockIn@00:00, ClockOut@00:01]`: a clock-out and a
clock-in share a timestamp, so a stable sort preserves their given
order. -/
def tieListA : List ClockRecord :=
  [⟨ClockType.clockOut, 0⟩, ⟨ClockType.clockIn, 0⟩, ⟨ClockType.clockOut, 60000⟩]

/-- The same multiset of records as `tieListA` with the two
equal-timestamp records swapped. -/
def tieListB : List ClockRecord :=
  [⟨ClockType.clockIn, 0⟩, ⟨ClockType.clockOut, 0⟩, ⟨ClockType.clockOut, 60000⟩]

/-! ## Helper lemmas -/

/-- An element is in `dedupFirstAux seen m` iff it is in `m` and not
already seen. -/
theorem mem_dedupFirstAux :
    ∀ (m seen : List ℤ) (a : ℤ), a ∈ dedupFirstAux seen m ↔ a ∈ m ∧ a ∉ seen := by
  intro m
  induction m with
  | nil => intro seen a; simp [dedupFirstAux]
  | cons d ds ih =>
    intro seen a
    by_cases hd : d ∈ seen
    · rw [dedupFirstAux, if_pos hd, ih]
      simp only [List.mem_cons]
      constructor
      · rintro ⟨h1, h2⟩; exact ⟨Or.inr h1, h2⟩
      · rintro ⟨h1 | h1, h2⟩
        · exact absurd (h1 ▸ hd) h2
        · exact ⟨h1, h2⟩
    · rw [dedupFirstAux, if_neg hd]
      simp only [List.mem_cons, ih, List.mem_cons]
      constructor
      · rintro (rfl | ⟨h1, h2⟩)
        · exact ⟨Or.inl rfl, hd⟩
        · exact ⟨Or.inr h1, fun hseen => h2 (Or.inr hseen)⟩
      · rintro ⟨h1 | h1, h2⟩
        · exact Or.inl h1
        · by_cases had : a = d
          · exact Or.inl had
          · exact Or.inr ⟨h1, fun hs => hs.elim had h2⟩

/-- `dedupFirstAux` emits no duplicates. -/
theorem nodup_dedupFirstAux : ∀ (m seen : List ℤ), (dedupFirstAux seen m).Nodup := by
  intro m
  induction m with
  | nil => intro seen; simp [dedupFirstAux]
  | cons d ds ih =>
    intro seen
    by_cases hd : d ∈ seen
    · rw [dedupFirstAux, if_pos hd]; exact ih seen
    · rw [dedupFirstAux, if_neg hd]
      refine List.nodup_cons.mpr ⟨fun hmem => ?_, ih (d :: seen)⟩
      exact ((mem_dedupFirstAux ds (d :: seen) d).mp hmem).2 (List.mem_cons_self d seen)

/-- Membership in `dedupFirst` is membership in the original list. -/
theorem mem_dedupFirst (l : List ℤ) (a : ℤ) : a ∈ dedupFirst l ↔ a ∈ l := by
  rw [dedupFirst, mem_dedupFirstAux]; simp

/-- `dedupFirst` produces a duplicate-free list. -/
theorem nodup_dedupFirst (l : List ℤ) : (dedupFirst l).Nodup :=
  nodup_dedupFirstAux l []

/-- If every element of `m` is already seen, `dedupFirstAux` emits
nothing. -/
theorem dedupFirstAux_eq_nil :
    ∀ (m seen : List ℤ), (∀ x ∈ m, x ∈ seen) → dedupFirstAux seen m = [] := by
  intro m
  induction m with
  | nil => intro seen _; rfl
  | cons d ds ih =>
    intro seen h
    rw [dedupFirstAux, if_pos (h d (List.mem_cons_self d ds))]
    exact ih seen fun x hx => h x (List.mem_cons_of_mem d hx)

/-- The source's minutes-accumulating day loop and the spec's
hours-accumulating pointer loop agree up to the factor 60. -/
theorem dayMinutesFold_div_sixty (l : List ClockRecord) :
    ∀ (ptr : Option ℤ) (m : ℚ),
      dayMinutesFold ptr m l / 60 = specHoursFold ptr (m / 60) l := by
  induction l with
  | nil => intro ptr m; simp [dayMinutesFold, specHoursFold]
  | cons r rs ih =>
    intro ptr m
    cases htype : r.type with
    | clockIn => simp only [dayMinutesFold, specHoursFold, htype]; exact ih _ _
    | clockOut =>
      cases ptr with
      | none => simp only [dayMinutesFold, specHoursFold, htype]; exact ih _ _
      | some tin =>
        simp only [dayMinutesFold, specHoursFold, htype]
        rw [ih]
        congr 1
        ring

/-! ## Weekly-hours claims -/

/-- C6 (counterexample): the claim that `calculateWeeklyHours` returns the
same total as the spec's single-pointer reference algorithm fails on a
ClockIn/ClockOut pair spanning midnight between two days of the same week:
the sorted, in-window sequence `[ClockIn@23:00 day 0, ClockOut@01:00 day 1]`
totals 0 in the source (the pair is split across two day groups) but 2
hours under the spec algorithm. -/
theorem weeklyHours_midnight_disagrees_with_spec :
    List.Sorted tsLE midnightPair ∧
    (∀ r ∈ midnightPair, 0 ≤ r.timestamp ∧ r.timestamp ≤ 604799999) ∧
    calculateWeeklyHours midnightPair = 0 ∧
    aggregateSpec midnightPair 0 604799999 = 2 := by
  refine ⟨by decide, by decide, ?_, ?_⟩
  · norm_num [calculateWeeklyHours, midnightPair, dedupFirst, dedupFirstAux, dayOf,
      msPerDay, dayMinutesFold, tsLE, List.insertionSort, List.orderedInsert, Int.fdiv]
  · norm_num [aggregateSpec, midnightPair, specHoursFold]

/-- C6 (amended): for a chronologically sorted record sequence lying within
the week window and on a single calendar day, `calculateWeeklyHours`
returns the same total as the spec's single-pointer reference algorithm;
the agreement fails only when a ClockIn/ClockOut pair spans midnight. -/
theorem weeklyHours_eq_spec_on_single_day (l : List ClockRecord)
    (d weekStart weekEnd : ℤ)
    (hsorted : List.Sorted tsLE l)
    (hday : ∀ r ∈ l, dayOf r.timestamp = d)
    (hwin : ∀ r ∈ l, weekStart ≤ r.timestamp ∧ r.timestamp ≤ weekEnd) :
    calculateWeeklyHours l = aggregateSpec l weekStart weekEnd := by
  have hfilter_win :
      (l.filter fun e => weekStart ≤ e.timestamp ∧ e.timestamp ≤ weekEnd) = l :=
    List.filter_eq_self.mpr fun a ha => by simpa using hwin a ha
  cases l with
  | nil =>
    simp [calculateWeeklyHours, aggregateSpec, dedupFirst, dedupFirstAux, specHoursFold]
  | cons r rs =>
    have hd0 : dayOf r.timestamp = d := hday r (List.mem_cons_self r rs)
    have hdays : dedupFirst ((r :: rs).map fun x => dayOf x.timestamp) = [d] := by
      rw [List.map_cons, hd0, dedupFirst, dedupFirstAux]
      rw [if_neg (List.not_mem_nil d)]
      rw [dedupFirstAux_eq_nil _ _ fun x hx => ?_]
      rcases List.mem_map.mp hx with ⟨y, hy, rfl⟩
      simp [hday y (List.mem_cons_of_mem r hy)]
    have hfilter_day :
        ((r :: rs).filter fun x => dayOf x.timestamp = d) = r :: rs :=
      List.filter_eq_self.mpr fun a ha => by simpa using hday a ha
    rw [calculateWeeklyHours, aggregateSpec, hfilter_win, hdays]
    rw [List.map_singleton, hfilter_day, hsorted.insertionSort_eq, List.sum_singleton]
    rw [dayMinutesFold_div_sixty, zero_div]

/-- C6 witness: the single-day pair `[ClockIn@09:00, ClockOut@17:00]`
satisfies the hypotheses, and the two algorithms agree on it. -/
theorem weeklyHours_eq_spec_on_single_day_witness :
    calculateWeeklyHours plainDay = aggregateSpec plainDay 0 604799999 :=
  weeklyHours_eq_spec_on_single_day plainDay 0 0 604799999
    (by decide) (by decide) (by decide)

/-- C7 (counterexample): aggregating
`[ClockIn@09:00, ClockIn@09:05, ClockOut@17:00]` does not return 7.92
hours — neither the raw total (475/60 = 95/12 ≈ 7.9167) nor the
dashboard's value rounded to the nearest 0.1 (7.9) equals 7.92. -/
theorem weeklyHours_doubleClockIn_not_792 :
    calculateWeeklyHours doubleClockInDay ≠ 198 / 25 ∧
    roundToTenth (calculateWeeklyHours doubleClockInDay) ≠ 198 / 25 := by
  have h : calculateWeeklyHours doubleClockInDay = 95 / 12 := by
    norm_num [calculateWeeklyHours, doubleClockInDay, dedupFirst, dedupFirstAux, dayOf,
      msPerDay, dayMinutesFold, tsLE, List.insertionSort, List.orderedInsert, Int.fdiv]
  rw [h]
  constructor
  · norm_num
  · norm_num [roundToTenth, round_eq]

/-- C7 (amended): the double clock-in sequence
`[ClockIn@09:00, ClockIn@09:05, ClockOut@17:00]` yields a raw total of
95/12 hours (7h55m: the second ClockIn overwrites the orphaned first), the
dashboard rounds it to 7.9; `[ClockIn@09:00, ClockOut@17:00]` yields 8.0
both raw and rounded. -/
theorem weeklyHours_example_totals :
    calculateWeeklyHours doubleClockInDay = 95 / 12 ∧
    roundToTenth (calculateWeeklyHours doubleClockInDay) = 79 / 10 ∧
    calculateWeeklyHours plainDay = 8 ∧
    roundToTenth (calculateWeeklyHours plainDay) = 8 := by
  have h1 : calculateWeeklyHours doubleClockInDay = 95 / 12 := by
    norm_num [calculateWeeklyHours, doubleClockInDay, dedupFirst, dedupFirstAux, dayOf,
      msPerDay, dayMinutesFold, tsLE, List.insertionSort, List.orderedInsert, Int.fdiv]
  have h2 : calculateWeeklyHours plainDay = 8 := by
    norm_num [calculateWeeklyHours, plainDay, dedupFirst, dedupFirstAux, dayOf,
      msPerDay, dayMinutesFold, tsLE, List.insertionSort, List.orderedInsert, Int.fdiv]
  refine ⟨h1, ?_, h2, ?_⟩
  · rw [h1]; norm_num [roundToTenth, round_eq]
  · rw [h2]; norm_num [roundToTenth, round_eq]

/-- C10 (counterexample): `calculateWeeklyHours` is not
permutation-invariant.  `tieListA` and `tieListB` are permutations of each
other (a clock-out and a clock-in share timestamp 0), yet the stable
within-day sort preserves their given order and the totals differ: 1/60
hour versus 0. -/
theorem weeklyHours_not_perm_invariant :
    tieListA.Perm tieListB ∧
    calculateWeeklyHours tieListA = 1 / 60 ∧
    calculateWeeklyHours tieListB = 0 := by
  refine ⟨by decide, ?_, ?_⟩
  · norm_num [calculateWeeklyHours, tieListA, dedupFirst, dedupFirstAux, dayOf,
      msPerDay, dayMinutesFold, tsLE, List.insertionSort, List.orderedInsert, Int.fdiv]
  · norm_num [calculateWeeklyHours, tieListB, dedupFirst, dedupFirstAux, dayOf,
      msPerDay, dayMinutesFold, tsLE, List.insertionSort, List.orderedInsert, Int.fdiv]

/-- C10 (amended): `calculateWeeklyHours` is permutation-invariant on
record lists whose timestamps are pairwise distinct: grouping by calendar
day and sorting by timestamp within each day then canonicalises the
pairing order, and the day-group sums commute. -/
theorem weeklyHours_perm_invariant_of_distinct (l₁ l₂ : List ClockRecord)
    (hperm : l₁.Perm l₂)
    (hnd : l₁.Pairwise fun a b => a.timestamp ≠ b.timestamp) :
    calculateWeeklyHours l₁ = calculateWeeklyHours l₂ := by
  have hsymm : ∀ {a b : ClockRecord},
      a.timestamp ≠ b.timestamp → b.timestamp ≠ a.timestamp :=
    fun h e => h e.symm
  have hgroup : ∀ d : ℤ,
      List.insertionSort tsLE (l₁.filter fun r => dayOf r.timestamp = d) =
        List.insertionSort tsLE (l₂.filter fun r => dayOf r.timestamp = d) := by
    intro d
    have hsortedLT : ∀ (l : List ClockRecord),
        l.Pairwise (fun a b => a.timestamp ≠ b.timestamp) →
        List.Sorted tsLT
          (List.insertionSort tsLE (l.filter fun r => dayOf r.timestamp = d)) := by
      intro l hl
      have hs := List.sorted_insertionSort tsLE (l.filter fun r => dayOf r.timestamp = d)
      have hne : (List.insertionSort tsLE
          (l.filter fun r => dayOf r.timestamp = d)).Pairwise
            (fun a b => a.timestamp ≠ b.timestamp) :=
        ((List.perm_insertionSort tsLE _).pairwise_iff fun {a b} h => hsymm h).mpr
          (hl.sublist (List.filter_sublist _))
      exact (hs.and hne).imp fun {a b} h => lt_of_le_of_ne h.1 h.2
    have hnd₂ : l₂.Pairwise (fun a b => a.timestamp ≠ b.timestamp) :=
      (hperm.pairwise_iff fun {a b} h => hsymm h).mp hnd
    refine List.eq_of_perm_of_sorted (r := tsLT) ?_ (hsortedLT l₁ hnd) (hsortedLT l₂ hnd₂)
    exact (List.perm_insertionSort tsLE _).trans
      ((hperm.filter _).trans (List.perm_insertionSort tsLE _).symm)
  have hdays : (dedupFirst (l₁.map fun r => dayOf r.timestamp)).Perm
      (dedupFirst (l₂.map fun r => dayOf r.timestamp)) := by
    refine (List.perm_ext_iff_of_nodup (nodup_dedupFirst _) (nodup_dedupFirst _)).mpr ?_
    intro a
    rw [mem_dedupFirst, mem_dedupFirst]
    exact (hperm.map _).mem_iff
  have hF : (fun d => dayMinutesFold none 0
        (List.insertionSort tsLE (l₁.filter fun r => dayOf r.timestamp = d)))
      = (fun d => dayMinutesFold none 0
        (List.insertionSort tsLE (l₂.filter fun r => dayOf r.timestamp = d))) :=
    funext fun d => congrArg (dayMinutesFold none 0) (hgroup d)
  rw [calculateWeeklyHours, calculateWeeklyHours, hF]
  exact congrArg (fun q => q / 60) ((hdays.map _).sum_eq)

/-- C10 witness: swapping the two records of a distinct-timestamp pair does
not change the total. -/
theorem weeklyHours_perm_invariant_witness :
    calculateWeeklyHours
        [⟨ClockType.clockIn, 32400000⟩, ⟨ClockType.clockOut, 61200000⟩] =
      calculateWeeklyHours
        [⟨ClockType.clockOut, 61200000⟩, ⟨ClockType.clockIn, 32400000⟩] :=
  weeklyHours_perm_invariant_of_distinct _ _ (by decide) (by decide)

/-! ## Distance helper lemmas -/

/-- The haversine intermediate vanishes on identical coordinates. -/
theorem haversineA_self (lat lng : ℝ) : haversineA lat lng lat lng = 0 := by
  simp [haversineA, sub_self]

/-- Identical coordinates are at distance 0. -/
theorem calculateDistance_self (lat lng : ℝ) :
    calculateDistance lat lng lat lng = 0 := by
  have h0 : (0 : ℝ) < 1 := one_pos
  simp [calculateDistance, haversineA_self, atan2, h0, Real.arctan_zero]

/-! ## State-machine claims -/

/-- C5: a last ClockIn (indeed, any last record) from a different calendar
day is treated as stale by `getCurrentStatus`: the staff member is
reported "Not clocked in today" and `canClockIn` is `true`, whatever the
proximity inputs are. -/
theorem staleSession_allows_clockIn (last : ClockRecord) (now : ℤ)
    (cur biz : Option Coordinate)
    (hstale : dayOf last.timestamp ≠ dayOf now) :
    getCurrentStatus (some last) now cur biz =
      ⟨Status.notClockedInToday, true, false⟩ := by
  simp [getCurrentStatus, hstale]

/-- C5 witness: a clock-in left open on day 0, queried on day 1 from a
location on the far side of the planet, still allows clocking in. -/
theorem staleSession_allows_clockIn_witness :
    dayOf (0 : ℤ) ≠ dayOf (86400000 : ℤ) ∧
    getCurrentStatus (some ⟨ClockType.clockIn, 0⟩) 86400000
        (some ⟨0, 0⟩) (some ⟨0, 180⟩) = ⟨Status.notClockedInToday, true, false⟩ :=
  ⟨by decide, staleSession_allows_clockIn ⟨ClockType.clockIn, 0⟩ 86400000
    (some ⟨0, 0⟩) (some ⟨0, 180⟩) (by decide)⟩

/-- C2 (amended): in the clocked-out states, `getCurrentStatus` allows
clock-in unconditionally when there is no last record (the function
returns before any proximity check), and for a same-day ClockOut record it
allows clock-in unless both locations are known and the distance exceeds
the radius, in which case it reports "Outside work area" and blocks. -/
theorem clockedOut_state_actions (now : ℤ) (cur biz : Option Coordinate)
    (last : ClockRecord)
    (htype : last.type = ClockType.clockOut)
    (hday : dayOf last.timestamp = dayOf now) :
    getCurrentStatus none now cur biz = ⟨Status.notClockedIn, true, false⟩ ∧
    getCurrentStatus (some last) now cur biz =
      (match cur, biz with
       | some c, some b =>
         if calculateDistance c.lat c.lng b.lat b.lng > defaultClockRadiusMeters
         then ⟨Status.outsideWorkArea, false, true⟩
         else ⟨Status.clockedOut, true, false⟩
       | _, _ => ⟨Status.clockedOut, true, false⟩) := by
  refine ⟨rfl, ?_⟩
  cases cur with
  | none => cases biz <;> simp [getCurrentStatus, hday, htype]
  | some c =>
    cases biz with
    | none => simp [getCurrentStatus, hday, htype]
    | some b =>
      by_cases hdist :
        calculateDistance c.lat c.lng b.lat b.lng > defaultClockRadiusMeters <;>
          simp [getCurrentStatus, hday, htype, hdist]

/-- C2 witness: no record and a same-day clock-out at the business's own
location. -/
theorem clockedOut_state_actions_witness :
    getCurrentStatus none 0 (some ⟨0, 0⟩) (some ⟨0, 0⟩) =
      ⟨Status.notClockedIn, true, false⟩ ∧
    getCurrentStatus (some ⟨ClockType.clockOut, 0⟩) 0 (some ⟨0, 0⟩) (some ⟨0, 0⟩) =
      (if calculateDistance 0 0 0 0 > defaultClockRadiusMeters
       then ⟨Status.outsideWorkArea, false, true⟩
       else ⟨Status.clockedOut, true, false⟩) :=
  clockedOut_state_actions 0 (some ⟨0, 0⟩) (some ⟨0, 0⟩)
    ⟨ClockType.clockOut, 0⟩ rfl rfl

/-- C9 (amended): the screen status is ClockedOut only because of a
same-day ClockOut last event — never merely because the location is
absent. -/
theorem clockedOut_only_from_event (last : Option ClockRecord) (now : ℤ)
    (cur biz : Option Coordinate)
    (h : (getCurrentStatus last now cur biz).status = Status.clockedOut) :
    ∃ l, last = some l ∧ l.type = ClockType.clockOut ∧
      dayOf l.timestamp = dayOf now := by
  cases last with
  | none => simp [getCurrentStatus] at h
  | some l =>
    refine ⟨l, rfl, ?_⟩
    by_cases hd : dayOf l.timestamp ≠ dayOf now
    · simp [getCurrentStatus, hd] at h
    · rw [not_not] at hd
      refine ⟨?_, hd⟩
      cases htype : l.type with
      | clockIn =>
        cases cur with
        | none => cases biz <;> simp [getCurrentStatus, hd, htype] at h
        | some c =>
          cases biz with
          | none => simp [getCurrentStatus, hd, htype] at h
          | some b =>
            by_cases hdist : calculateDistance c.lat c.lng b.lat b.lng >
                defaultClockRadiusMeters <;>
              simp [getCurrentStatus, hd, htype, hdist] at h
      | clockOut => rfl

/-- C9 witness: a same-day clock-out with no location available is indeed
the clocked-out case the theorem exposes. -/
theorem clockedOut_only_from_event_witness :
    ∃ l, (some ⟨ClockType.clockOut, 0⟩ : Option ClockRecord) = some l ∧
      l.type = ClockType.clockOut ∧ dayOf l.timestamp = dayOf 0 :=
  clockedOut_only_from_event (some ⟨ClockType.clockOut, 0⟩) 0 none none rfl

/-- C9 (counterexample): an absent current location does not make the
derived status Unknown.  With a same-day open clock-in and no location,
`getCurrentStatus` reports "Currently clocked in"; with no record and no
location it reports "Not clocked in"; and `getUserClockStatus`'s fallback
with no stored status returns `clocked-out`, not `unknown` (its `unknown`
arises only from a thrown store access). -/
theorem absentLocation_not_unknown :
    getCurrentStatus (some ⟨ClockType.clockIn, 0⟩) 0 none (some ⟨0, 0⟩) =
      ⟨Status.currentlyClockedIn, false, false⟩ ∧
    getCurrentStatus none 0 none none = ⟨Status.notClockedIn, true, false⟩ ∧
    getUserClockStatus none none 0 = UserClockStatus.clockedOut := by
  refine ⟨?_, rfl, rfl⟩
  simp [getCurrentStatus]

/-- C1 (code evidence): the transition validation in `clockIn` /
`clockOut` is commented out in the source, so with the last record a
same-day clock-in (timestamp 0, call at timestamp 3600000 of the same
day), `clockIn` succeeds instead of failing with IllegalTransition, and
`clockOut` succeeds even with no same-day open clock-in. -/
theorem clock_actions_skip_validation :
    dayOf 0 = dayOf 3600000 ∧
    clockIn 3600000 ⟨0, 0⟩ ⟨0, 0⟩ =
      Except.ok ⟨ClockType.clockIn, 3600000, 0⟩ ∧
    clockOut 3600000 ⟨0, 0⟩ ⟨0, 0⟩ =
      Except.ok ⟨ClockType.clockOut, 3600000, 0⟩ := by
  refine ⟨by decide, ?_, ?_⟩ <;>
    simp [clockIn, clockOut, calculateDistance_self]

/-! ## Geo-proximity claims -/

/-- The source's product form of the intermediate `a` equals the spec's
squared form, and the radii agree, so `calculateDistance` is exactly the
spec's formula. -/
theorem calculateDistance_eq_spec (lat1 lng1 lat2 lng2 : ℝ) :
    calculateDistance lat1 lng1 lat2 lng2 = haversineSpec lat1 lng1 lat2 lng2 := by
  have ha : Real.sin ((lat2 - lat1) * Real.pi / 180 / 2) *
        Real.sin ((lat2 - lat1) * Real.pi / 180 / 2) +
      Real.cos (lat1 * Real.pi / 180) * Real.cos (lat2 * Real.pi / 180) *
        Real.sin ((lng2 - lng1) * Real.pi / 180 / 2) *
        Real.sin ((lng2 - lng1) * Real.pi / 180 / 2) =
      Real.sin ((lat2 - lat1) * Real.pi / 180 / 2) ^ 2 +
        Real.cos (lat1 * Real.pi / 180) * Real.cos (lat2 * Real.pi / 180) *
          Real.sin ((lng2 - lng1) * Real.pi / 180 / 2) ^ 2 := by
    ring
  simp only [calculateDistance, haversineA, haversineSpec]
  rw [ha]
  norm_num

/-- The `ScheduleScreen` copy of the distance helper also equals the
spec's formula. -/
theorem scheduleCalculateDistance_eq_spec (lat1 lng1 lat2 lng2 : ℝ) :
    scheduleCalculateDistance lat1 lng1 lat2 lng2 =
      haversineSpec lat1 lng1 lat2 lng2 := by
  have ha : Real.sin ((lat2 - lat1) * Real.pi / 180 / 2) *
        Real.sin ((lat2 - lat1) * Real.pi / 180 / 2) +
      Real.cos (lat1 * Real.pi / 180) * Real.cos (lat2 * Real.pi / 180) *
        Real.sin ((lng2 - lng1) * Real.pi / 180 / 2) *
        Real.sin ((lng2 - lng1) * Real.pi / 180 / 2) =
      Real.sin ((lat2 - lat1) * Real.pi / 180 / 2) ^ 2 +
        Real.cos (lat1 * Real.pi / 180) * Real.cos (lat2 * Real.pi / 180) *
          Real.sin ((lng2 - lng1) * Real.pi / 180 / 2) ^ 2 := by
    ring
  simp only [scheduleCalculateDistance, haversineSpec]
  rw [ha]
  norm_num

/-- `Math.atan2` of two non-negative arguments is non-negative. -/
theorem atan2_nonneg {y x : ℝ} (hy : 0 ≤ y) (hx : 0 ≤ x) : 0 ≤ atan2 y x := by
  rw [atan2]
  split_ifs with h1 h2 h3 h4
  · have h0 : Real.arctan 0 ≤ Real.arctan (y / x) :=
      Real.arctan_strictMono.monotone (div_nonneg hy (le_of_lt h1))
    rwa [Real.arctan_zero] at h0
  · linarith
  · linarith [Real.pi_pos]
  · linarith
  · exact le_refl 0

/-- The distance formula never produces a negative value: both haversine
square roots are non-negative, so the `atan2` angle is non-negative. -/
theorem calculateDistance_nonneg (lat1 lng1 lat2 lng2 : ℝ) :
    0 ≤ calculateDistance lat1 lng1 lat2 lng2 := by
  have h := atan2_nonneg (Real.sqrt_nonneg (haversineA lat1 lng1 lat2 lng2))
    (Real.sqrt_nonneg (1 - haversineA lat1 lng1 lat2 lng2))
  simp only [calculateDistance]
  have h2 : (0 : ℝ) ≤ 2 * atan2 (Real.sqrt (haversineA lat1 lng1 lat2 lng2))
      (Real.sqrt (1 - haversineA lat1 lng1 lat2 lng2)) := by linarith
  exact mul_nonneg (by norm_num) h2

/-- For in-range latitudes the haversine intermediate is non-negative. -/
theorem haversineA_nonneg (lat1 lng1 lat2 lng2 : ℝ)
    (h1 : -90 ≤ lat1) (h2 : lat1 ≤ 90) (h3 : -90 ≤ lat2) (h4 : lat2 ≤ 90) :
    0 ≤ haversineA lat1 lng1 lat2 lng2 := by
  have hpi := Real.pi_pos
  have hc1 : 0 ≤ Real.cos (lat1 * Real.pi / 180) := by
    apply Real.cos_nonneg_of_mem_Icc
    rw [Set.mem_Icc]
    constructor <;> nlinarith
  have hc2 : 0 ≤ Real.cos (lat2 * Real.pi / 180) := by
    apply Real.cos_nonneg_of_mem_Icc
    rw [Set.mem_Icc]
    constructor <;> nlinarith
  simp only [haversineA]
  have hrw : Real.cos (lat1 * Real.pi / 180) * Real.cos (lat2 * Real.pi / 180) *
      Real.sin ((lng2 - lng1) * Real.pi / 180 / 2) *
      Real.sin ((lng2 - lng1) * Real.pi / 180 / 2) =
      Real.cos (lat1 * Real.pi / 180) * Real.cos (lat2 * Real.pi / 180) *
      (Real.sin ((lng2 - lng1) * Real.pi / 180 / 2) *
        Real.sin ((lng2 - lng1) * Real.pi / 180 / 2)) := by
    ring
  rw [hrw]
  exact add_nonneg (mul_self_nonneg _)
    (mul_nonneg (mul_nonneg hc1 hc2) (mul_self_nonneg _))

/-- For in-range latitudes the haversine intermediate is at most 1, so
`√(1-a)` has a non-negative argument without any clamping. -/
theorem haversineA_le_one (lat1 lng1 lat2 lng2 : ℝ)
    (h1 : -90 ≤ lat1) (h2 : lat1 ≤ 90) (h3 : -90 ≤ lat2) (h4 : lat2 ≤ 90) :
    haversineA lat1 lng1 lat2 lng2 ≤ 1 := by
  have hpi := Real.pi_pos
  simp only [haversineA]
  have hc1 : 0 ≤ Real.cos (lat1 * Real.pi / 180) := by
    apply Real.cos_nonneg_of_mem_Icc
    rw [Set.mem_Icc]
    constructor <;> nlinarith
  have hc2 : 0 ≤ Real.cos (lat2 * Real.pi / 180) := by
    apply Real.cos_nonneg_of_mem_Icc
    rw [Set.mem_Icc]
    constructor <;> nlinarith
  have hΔ : (lat2 - lat1) * Real.pi / 180 =
      lat2 * Real.pi / 180 - lat1 * Real.pi / 180 := by ring
  rw [hΔ]
  have hs : Real.sin ((lat2 * Real.pi / 180 - lat1 * Real.pi / 180) / 2) ^ 2 =
      1 / 2 - Real.cos (lat2 * Real.pi / 180 - lat1 * Real.pi / 180) / 2 := by
    have hA := Real.sin_sq ((lat2 * Real.pi / 180 - lat1 * Real.pi / 180) / 2)
    have hB := Real.cos_sq ((lat2 * Real.pi / 180 - lat1 * Real.pi / 180) / 2)
    have h2x : 2 * ((lat2 * Real.pi / 180 - lat1 * Real.pi / 180) / 2) =
        lat2 * Real.pi / 180 - lat1 * Real.pi / 180 := by ring
    rw [h2x] at hB
    linarith
  have hsub := Real.cos_sub (lat2 * Real.pi / 180) (lat1 * Real.pi / 180)
  have hadd := Real.cos_add (lat2 * Real.pi / 180) (lat1 * Real.pi / 180)
  have hle := Real.cos_le_one (lat2 * Real.pi / 180 + lat1 * Real.pi / 180)
  have ht := Real.sin_sq_le_one ((lng2 - lng1) * Real.pi / 180 / 2)
  have key : 0 ≤ Real.cos (lat1 * Real.pi / 180) * Real.cos (lat2 * Real.pi / 180) *
      (1 - Real.sin ((lng2 - lng1) * Real.pi / 180 / 2) *
        Real.sin ((lng2 - lng1) * Real.pi / 180 / 2)) := by
    refine mul_nonneg (mul_nonneg hc1 hc2) ?_
    nlinarith [ht]
  nlinarith [hs, hsub, hadd, hle, key]

/-- C8: for in-range coordinates the haversine intermediate `a` lies in
`[0, 1]` — clamping it to `[0, 1]` is the identity, so the `√a`, `√(1-a)`
and `atan2` steps stay in their domains — the resulting distance is
non-negative, and identical coordinates yield distance 0. -/
theorem geo_evaluate_safe (lat1 lng1 lat2 lng2 : ℝ) :
    (latLngInRange lat1 lng1 lat2 lng2 →
      0 ≤ haversineA lat1 lng1 lat2 lng2 ∧
      haversineA lat1 lng1 lat2 lng2 ≤ 1 ∧
      min 1 (max 0 (haversineA lat1 lng1 lat2 lng2)) =
        haversineA lat1 lng1 lat2 lng2 ∧
      0 ≤ calculateDistance lat1 lng1 lat2 lng2) ∧
    calculateDistance lat1 lng1 lat1 lng1 = 0 := by
  refine ⟨fun h => ?_, calculateDistance_self lat1 lng1⟩
  obtain ⟨ha1, ha2, -, -, hb1, hb2, -, -⟩ := h
  have h0 := haversineA_nonneg lat1 lng1 lat2 lng2 ha1 ha2 hb1 hb2
  have h1 := haversineA_le_one lat1 lng1 lat2 lng2 ha1 ha2 hb1 hb2
  exact ⟨h0, h1, by rw [max_eq_right h0, min_eq_right h1],
    calculateDistance_nonneg lat1 lng1 lat2 lng2⟩

/-- C8 witness: at the in-range pair (25°, 55°) → (26°, 56°) the bounds
hold, and (25°, 55°) to itself is at distance 0. -/
theorem geo_evaluate_safe_witness :
    (0 ≤ haversineA 25 55 26 56 ∧ haversineA 25 55 26 56 ≤ 1 ∧
      min 1 (max 0 (haversineA 25 55 26 56)) = haversineA 25 55 26 56 ∧
      0 ≤ calculateDistance 25 55 26 56) ∧
    calculateDistance 25 55 25 55 = 0 :=
  ⟨(geo_evaluate_safe 25 55 26 56).1 (by norm_num [latLngInRange]),
   (geo_evaluate_safe 25 55 26 56).2⟩

/-- C3: `ClockService.calculateDistance` and the `ScheduleScreen` copy both
compute exactly the spec's haversine formula (R = 6371000 m, degree→radian
conversion by π/180, `c = 2·atan2(√a, √(1-a))`). -/
theorem geo_distance_matches_spec (lat1 lng1 lat2 lng2 : ℝ) :
    calculateDistance lat1 lng1 lat2 lng2 = haversineSpec lat1 lng1 lat2 lng2 ∧
    scheduleCalculateDistance lat1 lng1 lat2 lng2 =
      haversineSpec lat1 lng1 lat2 lng2 :=
  ⟨calculateDistance_eq_spec lat1 lng1 lat2 lng2,
   scheduleCalculateDistance_eq_spec lat1 lng1 lat2 lng2⟩

/-- C4 (counterexample): at latitude 100 — outside `[-90, 90]` — the
distance computation does not fail with InvalidCoordinate: it returns
`Except.ok` of the unguarded haversine value, and an error result is
impossible. -/
theorem outOfRange_returns_ok :
    ¬ latLngInRange 100 0 0 0 ∧
    calculateDistanceE 100 0 0 0 = Except.ok (calculateDistance 100 0 0 0) ∧
    ∀ e : GeoError, calculateDistanceE 100 0 0 0 ≠ Except.error e := by
  refine ⟨fun h => ?_, rfl, fun e h => ?_⟩
  · exact absurd h.2.1 (by norm_num)
  · simp [calculateDistanceE] at h

/-- C4 (amended): `calculateDistance` performs no coordinate-range
validation at all: for every input, in range or not, the fallible view
returns `ok` of the spec's haversine value, never an error. -/
theorem calculateDistanceE_never_fails (lat1 lng1 lat2 lng2 : ℝ) :
    calculateDistanceE lat1 lng1 lat2 lng2 =
      Except.ok (haversineSpec lat1 lng1 lat2 lng2) := by
  rw [calculateDistanceE, calculateDistance_eq_spec]

/-- The antipodal equator pair (0°, 0°) → (0°, 180°) drives the haversine
intermediate to exactly 1. -/
theorem haversineA_antipodal : haversineA 0 0 0 180 = 1 := by
  have e1 : ((0 : ℝ) - 0) * Real.pi / 180 / 2 = 0 := by ring
  have e2 : ((180 : ℝ) - 0) * Real.pi / 180 / 2 = Real.pi / 2 := by ring
  have e3 : (0 : ℝ) * Real.pi / 180 = 0 := by ring
  simp only [haversineA, e1, e2, e3, Real.sin_zero, Real.cos_zero,
    Real.sin_pi_div_two]
  norm_num

/-- The antipodal equator pair is at distance `π · R`. -/
theorem calculateDistance_antipodal :
    calculateDistance 0 0 0 180 = 6371000 * Real.pi := by
  simp only [calculateDistance, haversineA_antipodal]
  rw [show (1 : ℝ) - 1 = 0 by ring, Real.sqrt_zero, Real.sqrt_one]
  rw [atan2]
  norm_num
  ring

/-- C2 (counterexample): with no last record, `getCurrentStatus` returns
before any proximity check: even on the far side of the planet (distance
`6371000·π` m, far beyond the 500 m radius, both locations known) the
staff member may clock in, where the claim demands allowedAction = None
("too far from site"). -/
theorem noRecord_far_still_allows_clockIn :
    getCurrentStatus none 0 (some ⟨0, 0⟩) (some ⟨0, 180⟩) =
      ⟨Status.notClockedIn, true, false⟩ ∧
    calculateDistance 0 0 0 180 > defaultClockRadiusMeters := by
  refine ⟨rfl, ?_⟩
  rw [calculateDistance_antipodal, defaultClockRadiusMeters]
  nlinarith [Real.pi_gt_three]

end WandaStaff
